import Mathlib

/-!
Formal model of the fastify-playground request-scoped authentication gate
(`app/src/plugins/jwt.ts`) and the structured-error normalizer
(the `error-handler` plugin registered via `setErrorHandler`).

Conventions of the shallow embedding:
* A JavaScript value that may be `undefined` is an `Option`.
* JSON object bodies are Lean structures; `ErrorBody.fieldNames` renders the
  list of keys that survive JSON serialization (a key whose value is
  `undefined` is dropped, matching `JSON.stringify`).
* The process environment is an explicit `Env` record holding the two
  variables the code reads, `JWT_SECRET` and `NODE_ENV`.
* JavaScript truthiness of a string (`s || d`, `!s`) is modelled explicitly:
  the empty string is falsy.
* HTTP status codes are `Nat`.
-/

/-- JSON-like scalar values used in claim sets. -/
inductive JVal where
  | str (s : String)
  | num (n : Int)
  | boolean (b : Bool)
deriving DecidableEq, Repr

/-- The process environment as read by the plugins: the two environment
variables `JWT_SECRET` and `NODE_ENV`, each possibly unset. -/
structure Env where
  JWT_SECRET : Option String
  NODE_ENV : Option String
deriving DecidableEq, Repr

/-- A Failure record: the `FastifyError` reaching `setErrorHandler`, carrying
a message, an optional machine code, an optional numeric status code, an
optional structured validation list, and the underlying stack trace. -/
structure Failure where
  message : String
  code : Option String
  statusCode : Option Nat
  validation : Option (List String)
  stack : String
deriving DecidableEq, Repr

/-- The inner object of the canonical JSON error shape
`error: (message, code, statusCode, validation?, stack?)`. Optional fields
model keys absent from the serialized JSON. -/
structure ErrorBody where
  message : String
  code : Option String
  statusCode : Nat
  validation : Option (List String)
  stack : Option String
deriving DecidableEq, Repr

/-- Keys present in the serialized JSON of an error body, in source order:
`message`, then `code` when defined, then `statusCode`, then `validation`
when defined, then `stack` when defined. -/
def ErrorBody.fieldNames (b : ErrorBody) : List String :=
  ["message"]
    ++ (match b.code with | some _ => ["code"] | none => [])
    ++ ["statusCode"]
    ++ (match b.validation with | some _ => ["validation"] | none => [])
    ++ (match b.stack with | some _ => ["stack"] | none => [])

/-- An HTTP error reply: the wire status plus the `error` object of the body. -/
structure Response where
  status : Nat
  body : ErrorBody
deriving DecidableEq, Repr

/-- Log severity chosen by the error handler. -/
inductive Severity where
  | errorLevel
  | warnLevel
deriving DecidableEq, Repr

/-- `error.statusCode ?? 500`: nullish coalescing, so only an absent status
code falls back to 500. -/
def resolveStatus (e : Failure) : Nat :=
  e.statusCode.getD 500

/-- The handler's logging branch: `statusCode >= 500` logs at error level,
otherwise `statusCode >= 400` logs at warning level, otherwise nothing. -/
def logSeverity (s : Nat) : Option Severity :=
  if 500 ≤ s then some Severity.errorLevel
  else if 400 ≤ s then some Severity.warnLevel
  else none

/-- `...(process.env.NODE_ENV !== "production" && (stack: error.stack))`:
the stack key is added exactly when the environment is not production. -/
def stackField (env : Env) (e : Failure) : Option String :=
  if env.NODE_ENV = some "production" then none else some e.stack

/-- JavaScript `a || d` on an optional string: an absent or empty (falsy)
string yields the default. -/
def jsOrString (o : Option String) (d : String) : String :=
  match o with
  | some s => if s = "" then d else s
  | none => d

/-- Everything observable the error handler does with one Failure record:
the severity it logs at (if any) and the reply it sends. -/
structure HandlerOutcome where
  logged : Option Severity
  response : Response
deriving DecidableEq, Repr

/-- The `setErrorHandler` callback of the error-handler plugin: resolve the
status with `?? 500`, log by severity, then either the validation branch
(status forced to 422, message `Validation failed`, code defaulted by `||`,
validation echoed) or the generic branch (resolved status used as wire
status and body field, message and code passed through); both branches add
the stack outside production. -/
def errorHandler (env : Env) (e : Failure) : HandlerOutcome :=
  let statusCode := resolveStatus e
  let logged := logSeverity statusCode
  match e.validation with
  | some v =>
      { logged := logged
        response :=
          { status := 422
            body :=
              { message := "Validation failed"
                code := some (jsOrString e.code "VALIDATION_ERROR")
                statusCode := 422
                validation := some v
                stack := stackField env e } } }
  | none =>
      { logged := logged
        response :=
          { status := statusCode
            body :=
              { message := e.message
                code := e.code
                statusCode := statusCode
                validation := none
                stack := stackField env e } } }

/-- A claim set: an ordered association of claim names to values, as carried
in a JWT payload. -/
abbrev Claims := List (String × JVal)

/-- First-match lookup of a claim by name. -/
def lookupClaim (k : String) : Claims → Option JVal
  | [] => none
  | (k₂, v) :: rest => if k₂ = k then some v else lookupClaim k rest

/-- The reasons `request.jwtVerify()` can fail, per the spec's taxonomy of
authentication failures. -/
inductive VerifyFail where
  | headerMissing
  | headerMalformed
  | signatureInvalid
  | tokenExpired
  | tokenStructurallyInvalid
deriving DecidableEq, Repr

/-- The fixed body the authenticate decorator sends on any verification
failure: exactly message `Unauthorized`, code `UNAUTHORIZED`,
statusCode 401, taken literally from the decorator's `reply.send` call. -/
def unauthorizedBody : ErrorBody :=
  { message := "Unauthorized"
    code := some "UNAUTHORIZED"
    statusCode := 401
    validation := none
    stack := none }

/-- The gate's short-circuit reply: status 401 with the fixed body. -/
def unauthorizedResponse : Response :=
  { status := 401, body := unauthorizedBody }

/-- The `authenticate` decorator: try `jwtVerify`; on success write no reply
(the request proceeds), on any caught failure send the fixed 401 reply. -/
def authenticate (vr : Except VerifyFail Claims) : Option Response :=
  match vr with
  | Except.ok _ => none
  | Except.error _ => some unauthorizedResponse

/-- A protected route: the gate runs in `onRequest`; when it writes a reply
the framework never invokes the handler, otherwise the handler runs on the
verified claims. The boolean records whether the handler was invoked. -/
def runProtectedRoute (vr : Except VerifyFail Claims) (handler : Claims → Response) :
    Response × Bool :=
  match vr with
  | Except.ok user => (handler user, true)
  | Except.error _ => (unauthorizedResponse, false)

/-- The fixed development fallback secret from the jwt plugin source. -/
def developmentSecret : String := "development-secret-change-in-production"

/-- `process.env.JWT_SECRET || "development-secret-change-in-production"`:
JavaScript `||`, so an unset or empty variable yields the fallback. -/
def resolvedSecret (env : Env) : String :=
  match env.JWT_SECRET with
  | some s => if s = "" then developmentSecret else s
  | none => developmentSecret

/-- `!process.env.JWT_SECRET && process.env.NODE_ENV !== "test"`: the
startup warning fires when the secret is unset or empty and the process is
not in test mode. -/
def warnsAboutSecret (env : Env) : Bool :=
  (match env.JWT_SECRET with
    | some s => s == ""
    | none => true)
  && !(env.NODE_ENV == some "test")

/-- Modelled from the spec: token signing by `@fastify/jwt` (the library is
not part of this repository; the plugin registers it with algorithm HS256
and a configurable `expiresIn`, default one hour). A token is its payload
plus the secret that keyed its HMAC signature; signing appends `iat` set to
the current time and `exp` set to the current time plus the expiry. -/
structure Token where
  payload : Claims
  signedWith : String
deriving DecidableEq, Repr

/-- Modelled from the spec: `sign` accepts an arbitrary claim mapping, adds
`iat` (issued-at, the current time) and `exp` (issued-at plus the configured
expiry duration), and signs with the shared secret. Times are in seconds. -/
def signToken (secret : String) (expiresInSec : Nat) (now : Nat) (c : Claims) : Token :=
  { payload := c ++ [("iat", JVal.num (Int.ofNat now)),
                     ("exp", JVal.num (Int.ofNat (now + expiresInSec)))]
    signedWith := secret }

/-- Modelled from the spec: `verify` checks the signature against the shared
secret and rejects when the current time has reached the embedded expiry;
on success it returns the full decoded claim set. -/
def verifyToken (secret : String) (now : Nat) (t : Token) : Except VerifyFail Claims :=
  if t.signedWith = secret then
    match lookupClaim "exp" t.payload with
    | some (JVal.num e) =>
        if e ≤ (now : Int) then Except.error VerifyFail.tokenExpired
        else Except.ok t.payload
    | _ => Except.ok t.payload
  else Except.error VerifyFail.signatureInvalid

/-! ## Helper lemmas about serialized field presence -/

theorem statusCode_mem_fieldNames (b : ErrorBody) : "statusCode" ∈ b.fieldNames := by
  obtain ⟨m, c, sc, v, st⟩ := b
  cases c <;> cases v <;> cases st <;> simp [ErrorBody.fieldNames]

theorem stack_mem_fieldNames_iff (b : ErrorBody) :
    "stack" ∈ b.fieldNames ↔ b.stack ≠ none := by
  obtain ⟨m, c, sc, v, st⟩ := b
  cases c <;> cases v <;> cases st <;> simp [ErrorBody.fieldNames]

theorem errorHandler_body_stack (env : Env) (e : Failure) :
    (errorHandler env e).response.body.stack = stackField env e := by
  cases hv : e.validation <;> simp [errorHandler, hv]

/-! ## Claim theorems -/

/-- Claim C1: whenever token verification on a protected route fails — for
any of the failure reasons — the authenticate decorator replies with status
401 and exactly the fixed body (message `Unauthorized`, code
`UNAUTHORIZED`, statusCode 401), and the route handler is never invoked. -/
theorem gate_failure_uniform_401 (f : VerifyFail) (handler : Claims → Response) :
    authenticate (Except.error f) = some unauthorizedResponse ∧
    runProtectedRoute (Except.error f) handler =
      ({ status := 401
         body := { message := "Unauthorized", code := some "UNAUTHORIZED", statusCode := 401,
                   validation := none, stack := none } }, false) :=
  ⟨rfl, rfl⟩

/-- Claim C6: the stack field is present in the normalizer's serialized
error body exactly when the process is not in production mode, for every
Failure record — its presence depends on nothing but the mode. -/
theorem stack_iff_nonproduction (env : Env) (e : Failure) :
    "stack" ∈ (errorHandler env e).response.body.fieldNames ↔
      env.NODE_ENV ≠ some "production" := by
  rw [stack_mem_fieldNames_iff, errorHandler_body_stack]
  by_cases hp : env.NODE_ENV = some "production" <;> simp [stackField, hp]

/-- Witness for C6 at a concrete non-production environment. -/
theorem stack_iff_nonproduction_witness :
    "stack" ∈ (errorHandler ⟨none, some "development"⟩
      ⟨"m", none, none, none, "tr"⟩).response.body.fieldNames :=
  (stack_iff_nonproduction ⟨none, some "development"⟩
    ⟨"m", none, none, none, "tr"⟩).mpr (by simp)

/-- Claim C8: a Failure record carrying a validation array has its own
message discarded and replaced by the fixed string `Validation failed`;
every other record's message is passed through unchanged. -/
theorem message_passthrough (env : Env) (e : Failure) :
    (∀ v, e.validation = some v →
      (errorHandler env e).response.body.message = "Validation failed") ∧
    (e.validation = none → (errorHandler env e).response.body.message = e.message) := by
  constructor
  · intro v hv
    simp [errorHandler, hv]
  · intro hv
    simp [errorHandler, hv]

/-- Witness for C8 at concrete validation and non-validation failures. -/
theorem message_passthrough_witness :
    (errorHandler ⟨none, none⟩
      ⟨"boom", none, none, some ["bad"], "st"⟩).response.body.message = "Validation failed" ∧
    (errorHandler ⟨none, none⟩
      ⟨"boom", none, none, none, "st"⟩).response.body.message = "boom" :=
  ⟨(message_passthrough ⟨none, none⟩ ⟨"boom", none, none, some ["bad"], "st"⟩).1 ["bad"] rfl,
   (message_passthrough ⟨none, none⟩ ⟨"boom", none, none, none, "st"⟩).2 rfl⟩

/-- Claim C10: the gate's fixed 401 body serializes to exactly the three
fields message, code, statusCode — never stack or validation — and it does
not read the environment at all; by contrast, outside production the error
normalizer does include a stack field. -/
theorem unauthorized_body_fixed_shape (env : Env) (e : Failure) :
    unauthorizedBody.fieldNames = ["message", "code", "statusCode"] ∧
    "stack" ∉ unauthorizedBody.fieldNames ∧
    "validation" ∉ unauthorizedBody.fieldNames ∧
    (env.NODE_ENV ≠ some "production" →
      "stack" ∈ (errorHandler env e).response.body.fieldNames) := by
  refine ⟨rfl, by decide, by decide, ?_⟩
  intro hp
  exact (stack_iff_nonproduction env e).mpr hp

/-- Witness for C10: outside production the normalizer body does carry a
stack field, while the gate body never does. -/
theorem unauthorized_body_fixed_shape_witness :
    "stack" ∈ (errorHandler ⟨none, none⟩
      ⟨"m", none, none, none, "tr"⟩).response.body.fieldNames :=
  (unauthorized_body_fixed_shape ⟨none, none⟩
    ⟨"m", none, none, none, "tr"⟩).2.2.2 (by simp)

/-- Counterexample to C2 as stated: a validation failure supplying the empty
string as its code is answered with code `VALIDATION_ERROR` — the supplied
code is not echoed, because the source defaults with JavaScript `||` and the
empty string is falsy. -/
theorem validation_empty_code_not_echoed :
    (errorHandler ⟨none, none⟩
      ⟨"m", some "", none, some ["oops"], "st"⟩).response.body.code
        = some "VALIDATION_ERROR" ∧
    (errorHandler ⟨none, none⟩
      ⟨"m", some "", none, some ["oops"], "st"⟩).response.body.code ≠ some "" := by
  decide

/-- Claim C2 (amended): every Failure record carrying a validation array is
answered with status 422 regardless of its nominal statusCode, with the
validation array included, and with the response code equal to the record's
code when a non-empty one is supplied and `VALIDATION_ERROR` otherwise
(an absent or empty-string code both default). -/
theorem validation_forces_422 (env : Env) (e : Failure) (v : List String)
    (h : e.validation = some v) :
    (errorHandler env e).response.status = 422 ∧
    (errorHandler env e).response.body.statusCode = 422 ∧
    (errorHandler env e).response.body.validation = some v ∧
    (∀ c, e.code = some c → c ≠ "" →
      (errorHandler env e).response.body.code = some c) ∧
    ((e.code = none ∨ e.code = some "") →
      (errorHandler env e).response.body.code = some "VALIDATION_ERROR") := by
  refine ⟨by simp [errorHandler, h], by simp [errorHandler, h],
    by simp [errorHandler, h], ?_, ?_⟩
  · intro c hc hne
    simp [errorHandler, h, jsOrString, hc, hne]
  · rintro (hc | hc) <;> simp [errorHandler, h, jsOrString, hc]

/-- Witness for the amended C2 at a concrete validation failure carrying a
non-empty code and a nominal statusCode of 500. -/
theorem validation_forces_422_witness :
    (errorHandler ⟨none, none⟩
      ⟨"m", some "E_BAD", some 500, some ["x"], "st"⟩).response.status = 422 ∧
    (errorHandler ⟨none, none⟩
      ⟨"m", some "E_BAD", some 500, some ["x"], "st"⟩).response.body.code = some "E_BAD" :=
  ⟨(validation_forces_422 ⟨none, none⟩
      ⟨"m", some "E_BAD", some 500, some ["x"], "st"⟩ ["x"] rfl).1,
   (validation_forces_422 ⟨none, none⟩
      ⟨"m", some "E_BAD", some 500, some ["x"], "st"⟩ ["x"] rfl).2.2.2.1 "E_BAD" rfl
      (by decide)⟩

/-- Counterexample to C3 as stated: a Failure record carrying statusCode 600,
which lies outside [100,599], is answered with status 600 — the handler
applies `?? 500` with no range check, so the claimed default to 500 does not
happen. -/
theorem out_of_range_status_used :
    (errorHandler ⟨none, none⟩ ⟨"m", none, some 600, none, "st"⟩).response.status = 600 ∧
    (errorHandler ⟨none, none⟩ ⟨"m", none, some 600, none, "st"⟩).response.status ≠ 500 := by
  decide

/-- Claim C3 (amended): for a Failure record without a validation array, any
carried statusCode is used as-is — with no range restriction — and only an
absent statusCode defaults to 500; the resolved value is both the wire
status and the statusCode field of the body. -/
theorem status_resolution (env : Env) (e : Failure) (h : e.validation = none) :
    (∀ s, e.statusCode = some s → (errorHandler env e).response.status = s) ∧
    (e.statusCode = none → (errorHandler env e).response.status = 500) ∧
    (errorHandler env e).response.body.statusCode = (errorHandler env e).response.status := by
  refine ⟨?_, ?_, by simp [errorHandler, h]⟩
  · intro s hs
    simp [errorHandler, h, resolveStatus, hs]
  · intro hs
    simp [errorHandler, h, resolveStatus, hs]

/-- Witness for the amended C3 at a carried status and at an absent one. -/
theorem status_resolution_witness :
    (errorHandler ⟨none, none⟩ ⟨"m", none, some 418, none, "st"⟩).response.status = 418 ∧
    (errorHandler ⟨none, none⟩ ⟨"m", none, none, none, "st"⟩).response.status = 500 :=
  ⟨(status_resolution ⟨none, none⟩ ⟨"m", none, some 418, none, "st"⟩ rfl).1 418 rfl,
   (status_resolution ⟨none, none⟩ ⟨"m", none, none, none, "st"⟩ rfl).2.1 rfl⟩

/-- Counterexample to C4 as stated: a Failure record carrying statusCode 200
is echoed with body statusCode 200, which is below 400 — the claimed
[400,599] invariant fails for out-of-range carried statuses. -/
theorem status_200_echoed_out_of_range :
    (errorHandler ⟨none, none⟩
      ⟨"m", none, some 200, none, "st"⟩).response.body.statusCode = 200 ∧
    ¬(400 ≤ (errorHandler ⟨none, none⟩
      ⟨"m", none, some 200, none, "st"⟩).response.body.statusCode) := by
  decide

/-- Claim C4 (amended): the statusCode field is always present in the
serialized body, and it lies in [400,599] whenever the record's own
statusCode, defaulted to 500, lies in [400,599] (a validation failure is
always answered 422; an out-of-range carried status is echoed as-is). -/
theorem statusCode_field_present_and_range (env : Env) (e : Failure)
    (h : 400 ≤ e.statusCode.getD 500 ∧ e.statusCode.getD 500 ≤ 599) :
    "statusCode" ∈ (errorHandler env e).response.body.fieldNames ∧
    400 ≤ (errorHandler env e).response.body.statusCode ∧
    (errorHandler env e).response.body.statusCode ≤ 599 := by
  refine ⟨statusCode_mem_fieldNames _, ?_⟩
  cases hv : e.validation
  · simpa [errorHandler, resolveStatus, hv] using h
  · simp [errorHandler, hv]

/-- Witness for the amended C4 at a record with no statusCode of its own. -/
theorem statusCode_field_present_and_range_witness :
    "statusCode" ∈ (errorHandler ⟨none, none⟩
      ⟨"m", none, none, none, "st"⟩).response.body.fieldNames ∧
    400 ≤ (errorHandler ⟨none, none⟩
      ⟨"m", none, none, none, "st"⟩).response.body.statusCode :=
  ⟨(statusCode_field_present_and_range ⟨none, none⟩
      ⟨"m", none, none, none, "st"⟩ (by decide)).1,
   (statusCode_field_present_and_range ⟨none, none⟩
      ⟨"m", none, none, none, "st"⟩ (by decide)).2.1⟩

/-- Counterexample to C7 as stated: with JWT_SECRET set to the empty string —
a set variable — the fallback secret is used and the warning fires, because
the source tests the variable with JavaScript truthiness (`||` and `!`),
under which the empty string counts as absent. -/
theorem empty_secret_uses_fallback_and_warns :
    resolvedSecret ⟨some "", none⟩ = developmentSecret ∧
    resolvedSecret ⟨some "", none⟩ ≠ "" ∧
    warnsAboutSecret ⟨some "", none⟩ = true := by
  decide

/-- Claim C7 (amended): a non-empty JWT_SECRET is used as the secret and no
warning is logged; an unset or empty JWT_SECRET falls back to the fixed
development secret, with the warning logged exactly when NODE_ENV is not
`test`. -/
theorem secret_selection (env : Env) :
    (∀ s, env.JWT_SECRET = some s → s ≠ "" →
      resolvedSecret env = s ∧ warnsAboutSecret env = false) ∧
    ((env.JWT_SECRET = none ∨ env.JWT_SECRET = some "") →
      resolvedSecret env = developmentSecret ∧
      (warnsAboutSecret env = true ↔ env.NODE_ENV ≠ some "test")) := by
  constructor
  · intro s hs hne
    constructor
    · simp [resolvedSecret, hs, hne]
    · simp [warnsAboutSecret, hs, hne]
  · rintro (hs | hs) <;>
      refine ⟨by simp [resolvedSecret, hs], ?_⟩ <;>
      simp [warnsAboutSecret, hs]

/-- Witness for the amended C7: a non-empty secret is used silently; an
unset secret falls back; test mode suppresses the warning. -/
theorem secret_selection_witness :
    resolvedSecret ⟨some "prod-secret", some "production"⟩ = "prod-secret" ∧
    warnsAboutSecret ⟨some "prod-secret", some "production"⟩ = false ∧
    resolvedSecret ⟨none, none⟩ = developmentSecret ∧
    warnsAboutSecret ⟨none, some "test"⟩ = false := by
  refine ⟨((secret_selection ⟨some "prod-secret", some "production"⟩).1
      "prod-secret" rfl (by decide)).1,
    ((secret_selection ⟨some "prod-secret", some "production"⟩).1
      "prod-secret" rfl (by decide)).2,
    ((secret_selection ⟨none, none⟩).2 (Or.inl rfl)).1, ?_⟩
  have h := ((secret_selection ⟨none, some "test"⟩).2 (Or.inl rfl)).2
  have hne : ¬ warnsAboutSecret ⟨none, some "test"⟩ = true := fun ht => (h.mp ht) rfl
  simpa using hne

theorem errorHandler_logged (env : Env) (e : Failure) :
    (errorHandler env e).logged = logSeverity (resolveStatus e) := by
  cases hv : e.validation <;> simp [errorHandler, hv]

/-- Claim C9: the log severity is chosen from the record's original
statusCode, defaulted to 500, before the validation override: a record with
both a validation array and a status of 500 or above is logged at error
severity even though its response has status 422, and a record with a
status in [400,499] is logged at warning severity. -/
theorem log_severity_pre_override (env : Env) (e : Failure) :
    (500 ≤ e.statusCode.getD 500 →
      (errorHandler env e).logged = some Severity.errorLevel) ∧
    (∀ s, e.statusCode = some s → 400 ≤ s → s < 500 →
      (errorHandler env e).logged = some Severity.warnLevel) ∧
    (∀ v, e.validation = some v → 500 ≤ e.statusCode.getD 500 →
      (errorHandler env e).logged = some Severity.errorLevel ∧
      (errorHandler env e).response.status = 422) := by
  refine ⟨?_, ?_, ?_⟩
  · intro h
    rw [errorHandler_logged]
    simp [logSeverity, resolveStatus, h]
  · intro s hs h4 h5
    rw [errorHandler_logged]
    simp only [logSeverity, resolveStatus, hs, Option.getD_some]
    rw [if_neg (by omega), if_pos h4]
  · intro v hv h
    refine ⟨?_, by simp [errorHandler, hv]⟩
    rw [errorHandler_logged]
    simp [logSeverity, resolveStatus, h]

/-- Witness for C9: a validation failure with nominal status 500 is logged
at error severity yet answered 422; a plain 404 is logged at warning. -/
theorem log_severity_pre_override_witness :
    (errorHandler ⟨none, none⟩
      ⟨"m", none, some 500, some ["x"], "st"⟩).logged = some Severity.errorLevel ∧
    (errorHandler ⟨none, none⟩
      ⟨"m", none, some 500, some ["x"], "st"⟩).response.status = 422 ∧
    (errorHandler ⟨none, none⟩
      ⟨"m", none, some 404, none, "st"⟩).logged = some Severity.warnLevel :=
  ⟨((log_severity_pre_override ⟨none, none⟩
      ⟨"m", none, some 500, some ["x"], "st"⟩).2.2 ["x"] rfl (by decide)).1,
   ((log_severity_pre_override ⟨none, none⟩
      ⟨"m", none, some 500, some ["x"], "st"⟩).2.2 ["x"] rfl (by decide)).2,
   (log_severity_pre_override ⟨none, none⟩
      ⟨"m", none, some 404, none, "st"⟩).2.1 404 rfl (by decide) (by decide)⟩

/-! ## Lookup lemmas for claim sets -/

theorem lookupClaim_append_of_some (k : String) (v : JVal) (c l : Claims)
    (h : lookupClaim k c = some v) : lookupClaim k (c ++ l) = some v := by
  induction c with
  | nil => simp [lookupClaim] at h
  | cons hd tl ih =>
      obtain ⟨k₂, w⟩ := hd
      by_cases hk : k₂ = k
      · simp [lookupClaim, hk] at h ⊢
        exact h
      · simp [lookupClaim, hk] at h ⊢
        exact ih h

theorem lookupClaim_append_of_none (k : String) (c l : Claims)
    (h : lookupClaim k c = none) : lookupClaim k (c ++ l) = lookupClaim k l := by
  induction c with
  | nil => simp [lookupClaim]
  | cons hd tl ih =>
      obtain ⟨k₂, w⟩ := hd
      by_cases hk : k₂ = k
      · simp [lookupClaim, hk] at h
      · simp [lookupClaim, hk] at h ⊢
        exact ih h

/-- Claim C5: for every valid claim set — one not already using the reserved
names `iat` and `exp` — verifying the token produced by signing it under the
same secret succeeds (at any time before the expiry) and returns a claim set
containing every original field with its original value, plus the added
`iat` (the signing time) and `exp` (the signing time plus the expiry). -/
theorem verify_sign_superset (secret : String) (expSec now tv : Nat) (c : Claims)
    (hiat : lookupClaim "iat" c = none) (hexp : lookupClaim "exp" c = none)
    (ht : tv < now + expSec) :
    verifyToken secret tv (signToken secret expSec now c)
      = Except.ok (signToken secret expSec now c).payload ∧
    (∀ k v, lookupClaim k c = some v →
      lookupClaim k (signToken secret expSec now c).payload = some v) ∧
    lookupClaim "iat" (signToken secret expSec now c).payload
      = some (JVal.num (Int.ofNat now)) ∧
    lookupClaim "exp" (signToken secret expSec now c).payload
      = some (JVal.num (Int.ofNat (now + expSec))) := by
  have hpay : (signToken secret expSec now c).payload
      = c ++ [("iat", JVal.num (Int.ofNat now)),
              ("exp", JVal.num (Int.ofNat (now + expSec)))] := rfl
  have hlookexp : lookupClaim "exp" (signToken secret expSec now c).payload
      = some (JVal.num (Int.ofNat (now + expSec))) := by
    rw [hpay, lookupClaim_append_of_none _ _ _ hexp]
    simp [lookupClaim]
  have hlookiat : lookupClaim "iat" (signToken secret expSec now c).payload
      = some (JVal.num (Int.ofNat now)) := by
    rw [hpay, lookupClaim_append_of_none _ _ _ hiat]
    simp [lookupClaim]
  refine ⟨?_, ?_, hlookiat, hlookexp⟩
  · unfold verifyToken
    rw [hlookexp]
    have hgt : ¬ ((now : Int) + (expSec : Int) ≤ (tv : Int)) := by
      exact_mod_cast Nat.not_le.mpr ht
    simp [signToken, hgt]
  · intro k v hkv
    rw [hpay]
    exact lookupClaim_append_of_some _ _ _ _ hkv

/-- Witness for C5: sign a one-field claim set and verify it immediately. -/
theorem verify_sign_superset_witness :
    verifyToken "secret" 0 (signToken "secret" 3600 0 [("userId", JVal.num 123)])
      = Except.ok (signToken "secret" 3600 0 [("userId", JVal.num 123)]).payload ∧
    lookupClaim "userId" (signToken "secret" 3600 0 [("userId", JVal.num 123)]).payload
      = some (JVal.num 123) :=
  ⟨(verify_sign_superset "secret" 3600 0 0 [("userId", JVal.num 123)]
      (by decide) (by decide) (by decide)).1,
   (verify_sign_superset "secret" 3600 0 0 [("userId", JVal.num 123)]
      (by decide) (by decide) (by decide)).2.1 "userId" (JVal.num 123) (by decide)⟩
